import Mathlib

/-!
Verification development for the FloatChat frontend.

The repository is a browser single-page application; the parts relevant to
the claims are shallowly embedded here:

* the JSON data model used for request/response bodies,
* the fetch wrappers `sendChat` / `getSystemHealth` (two variants of the
  api service module exist in the repository: one whose chat body is
  exactly `query`/`session_id`, and a legacy one that also sends
  `include_debug`),
* the chat page state machine (`handleNewChat`, `handleSendMessage`,
  `handleDeleteChat`, the startup health check),
* the two dashboard `/visualize` fetchers (one posts
  `parameter`/`date_range`/`region` and treats the whole 2xx body as one
  figure; the other also posts `mode: "dashboard"` and decodes
  `map_figure`/`chart_figure`),
* the reports page parameter toggle, and
* the mock local-storage authentication context.

Asynchronous effects are made explicit: a fetch call is represented by the
`Request` it issues plus a `FetchOutcome` supplied by the environment, and
JSON parsing (`response.json()` / `JSON.parse`) is an explicit parameter
`parse : String → Except String Json`, whose error value is the thrown
message.  A JavaScript promise is an `Except String` value: `.error m`
is a rejection whose `Error` has message `m`.
-/

namespace FloatChat

/-- JSON values, as produced by `JSON.parse` and consumed by the pages.
Numbers are modelled as integers; no claim performs numeric computation on
a JSON number. -/
inductive Json where
  | null : Json
  | bool (b : Bool) : Json
  | num (n : Int) : Json
  | str (s : String) : Json
  | arr (elems : List Json) : Json
  | obj (fields : List (String × Json)) : Json

/-- Property lookup on the field list of an object. -/
def lookupField : List (String × Json) → String → Option Json
  | [], _ => none
  | (k, v) :: rest, key => if k = key then some v else lookupField rest key

/-- JavaScript property access `j.key`: `none` models `undefined`
(non-objects and missing keys). -/
def getField : Json → String → Option Json
  | Json.obj fields, key => lookupField fields key
  | _, _ => none

/-- JavaScript truthiness of a JSON value. -/
def truthy : Json → Bool
  | Json.null => false
  | Json.bool b => b
  | Json.num n => n != 0
  | Json.str s => s != ""
  | Json.arr _ => true
  | Json.obj _ => true

mutual

/-- JavaScript string coercion of a JSON value (as applied by the `Error`
constructor to a non-string argument). -/
def jsToString : Json → String
  | Json.null => "null"
  | Json.bool b => if b then "true" else "false"
  | Json.num n => toString n
  | Json.str s => s
  | Json.arr elems => String.intercalate "," (jsToStringList elems)
  | Json.obj _ => "[object Object]"

/-- String coercions of a list of JSON values (array elements). -/
def jsToStringList : List Json → List String
  | [] => []
  | j :: rest => jsToString j :: jsToStringList rest

end

/-- `v.field || default` followed by string coercion, as in
`new Error(figureJson.error_details || fallback)`. -/
def jsOrElse (v : Option Json) (default : String) : String :=
  match v with
  | some j => if truthy j then jsToString j else default
  | none => default

/-- The key list of a JSON object body (order as serialized). -/
def fieldNames : Json → List String
  | Json.obj fields => fields.map Prod.fst
  | _ => []

/-- An HTTP request issued by the frontend: method, URL and JSON body. -/
structure Request where
  method : String
  url : String
  body : Json

/-- The environment's answer to a `fetch` call: either the promise rejects
(network failure, with the rejection message) or a response arrives with a
status code and a raw text body. -/
inductive FetchOutcome where
  | networkError (msg : String) : FetchOutcome
  | response (status : Nat) (body : String) : FetchOutcome

/-- `Response.ok`: status in the range 200-299. -/
def respOk (status : Nat) : Bool := 200 ≤ status && status < 300

/- The api module variant whose chat body is exactly
`query`/`session_id` (`src/unnamed/part_004`). -/
namespace ApiCurrent

/-- The request `sendChat` issues: `POST /chat` with body
`JSON.stringify({ query, session_id: sessionId })`. -/
def chatRequest (query sessionId : String) : Request :=
  { method := "POST"
    url := "http://localhost:8000/chat"
    body := Json.obj [("query", Json.str query), ("session_id", Json.str sessionId)] }

/-- `sendChat` from `src/unnamed/part_004`: one fetch; on a non-2xx status
it throws `HTTP error! status: <status> - <body text>`; on a 2xx status it
returns `await response.json()` (a parse failure is caught and rethrown
unchanged); a network failure is rethrown unchanged. -/
def sendChat (parse : String → Except String Json) (query sessionId : String)
    (outcome : FetchOutcome) : List Request × Except String Json :=
  ( [chatRequest query sessionId],
    match outcome with
    | FetchOutcome.networkError msg => Except.error msg
    | FetchOutcome.response status body =>
      if respOk status then parse body
      else Except.error ("HTTP error! status: " ++ Nat.repr status ++ " - " ++ body) )

/-- The object `{ status: 'disconnected' }` returned by the health fallback. -/
def disconnectedHealth : Json := Json.obj [("status", Json.str "disconnected")]

/-- `getSystemHealth` from `src/unnamed/part_004`.  On network failure or a
non-ok status the catch produces `{ status: 'disconnected' }`.  On an ok
status the source executes `return response.json()` WITHOUT `await`, so the
parse result is adopted as-is: a parse rejection bypasses the catch block
and rejects the returned promise. -/
def getSystemHealth (parse : String → Except String Json)
    (outcome : FetchOutcome) : Except String Json :=
  match outcome with
  | FetchOutcome.networkError _ => Except.ok disconnectedHealth
  | FetchOutcome.response status body =>
    if respOk status then parse body
    else Except.ok disconnectedHealth

end ApiCurrent

/- The legacy api module variant (`src/unnamed/part_003`), whose chat body
also carries `include_debug`. -/
namespace ApiLegacy

/-- The request this variant issues: `POST /chat` with body
`JSON.stringify({ query, session_id, include_debug })`. -/
def chatRequest (query sessionId : String) (includeDebug : Bool) : Request :=
  { method := "POST"
    url := "http://localhost:8000/chat"
    body := Json.obj [("query", Json.str query), ("session_id", Json.str sessionId),
                      ("include_debug", Json.bool includeDebug)] }

/-- `sendChat` from `src/unnamed/part_003`: one fetch; non-2xx throws
`HTTP error! status: <status>`; 2xx returns `await response.json()`;
rejections are rethrown unchanged.  `includeDebug` defaults to `false` at
the call site in the chat page, which passes only two arguments. -/
def sendChat (parse : String → Except String Json) (query sessionId : String)
    (includeDebug : Bool) (outcome : FetchOutcome) :
    List Request × Except String Json :=
  ( [chatRequest query sessionId includeDebug],
    match outcome with
    | FetchOutcome.networkError msg => Except.error msg
    | FetchOutcome.response status body =>
      if respOk status then parse body
      else Except.error ("HTTP error! status: " ++ Nat.repr status) )

end ApiLegacy

/-!
Message ids on the chat page are minted with `Date.now().toString()`
(possibly suffixed with `-bot`), so reasoning about their distinctness
needs a small theory of `Nat.repr`: it is injective and produces only
digit characters.
-/

/-- The decimal digit characters of `n`, most significant first; this is
the list produced by `Nat.toDigits 10`, defined by clean well-founded
recursion instead of fuel. -/
def natChars (n : Nat) : List Char :=
  if h : n < 10 then [Nat.digitChar n]
  else
    have : n / 10 < n := Nat.div_lt_self (by omega) (by omega)
    natChars (n / 10) ++ [Nat.digitChar (n % 10)]

/-- Decimal value of a digit-character list, most significant first. -/
def digitsToNat (l : List Char) : Nat :=
  l.foldl (fun acc c => 10 * acc + (c.toNat - 48)) 0

theorem digitsToNat_cons_eq (c : Char) (l : List Char) (acc : Nat) :
    List.foldl (fun acc c => 10 * acc + (c.toNat - 48)) acc (c :: l) =
      List.foldl (fun acc c => 10 * acc + (c.toNat - 48)) (10 * acc + (c.toNat - 48)) l := rfl

theorem digitChar_toNat_sub (d : Nat) (h : d < 10) : (Nat.digitChar d).toNat - 48 = d := by
  interval_cases d <;> decide

theorem digitChar_isDigit (d : Nat) (h : d < 10) : (Nat.digitChar d).isDigit = true := by
  interval_cases d <;> decide

theorem digitsToNat_append_single (l : List Char) (c : Char) :
    digitsToNat (l ++ [c]) = 10 * digitsToNat l + (c.toNat - 48) := by
  simp [digitsToNat, List.foldl_append]

theorem digitsToNat_natChars (n : Nat) : digitsToNat (natChars n) = n := by
  induction n using Nat.strong_induction_on with
  | _ n ih =>
    by_cases h : n < 10
    · simp [natChars, h, digitsToNat, digitChar_toNat_sub n h]
    · have hdiv : n / 10 < n := Nat.div_lt_self (by omega) (by omega)
      rw [natChars, dif_neg h, digitsToNat_append_single, ih (n / 10) hdiv,
        digitChar_toNat_sub (n % 10) (Nat.mod_lt n (by omega))]
      omega

theorem natChars_injective : Function.Injective natChars := by
  intro m n h
  have := congrArg digitsToNat h
  rwa [digitsToNat_natChars, digitsToNat_natChars] at this

theorem natChars_isDigit (n : Nat) : ∀ c ∈ natChars n, c.isDigit = true := by
  induction n using Nat.strong_induction_on with
  | _ n ih =>
    by_cases h : n < 10
    · intro c hc
      rw [natChars, dif_pos h] at hc
      simp only [List.mem_singleton] at hc
      subst hc
      exact digitChar_isDigit n h
    · intro c hc
      have hdiv : n / 10 < n := Nat.div_lt_self (by omega) (by omega)
      rw [natChars, dif_neg h] at hc
      rcases List.mem_append.mp hc with h1 | h2
      · exact ih (n / 10) hdiv c h1
      · simp only [List.mem_singleton] at h2
        subst h2
        exact digitChar_isDigit (n % 10) (Nat.mod_lt n (by omega))

/-- `Nat.toDigitsCore 10`, run with enough fuel, computes `natChars`. -/
theorem toDigitsCore_eq_natChars :
    ∀ (fuel n : Nat) (ds : List Char), n < fuel →
      Nat.toDigitsCore 10 fuel n ds = natChars n ++ ds := by
  intro fuel
  induction fuel with
  | zero => intro n ds h; omega
  | succ fuel ih =>
    intro n ds h
    by_cases h10 : n < 10
    · have hdiv : n / 10 = 0 := Nat.div_eq_of_lt h10
      have hmod : n % 10 = n := Nat.mod_eq_of_lt h10
      simp [Nat.toDigitsCore, hdiv, hmod, natChars, h10]
    · have hne : ¬ n / 10 = 0 := by
        intro h0
        have := Nat.div_eq_of_lt (by omega : n < 10)
        omega
      have hdivlt : n / 10 < fuel := by
        have h1 : n / 10 < n := Nat.div_lt_self (by omega) (by omega)
        omega
      rw [show Nat.toDigitsCore 10 (fuel + 1) n ds =
            Nat.toDigitsCore 10 fuel (n / 10) (Nat.digitChar (n % 10) :: ds) by
          simp [Nat.toDigitsCore, hne],
        ih (n / 10) (Nat.digitChar (n % 10) :: ds) hdivlt,
        show natChars n = natChars (n / 10) ++ [Nat.digitChar (n % 10)] by
          rw [natChars, dif_neg h10]]
      simp

theorem repr_eq_natChars (n : Nat) : Nat.repr n = (natChars n).asString := by
  rw [Nat.repr, Nat.toDigits, toDigitsCore_eq_natChars (n + 1) n [] (by omega),
    List.append_nil]

theorem asString_inj {l₁ l₂ : List Char} (h : l₁.asString = l₂.asString) : l₁ = l₂ :=
  congrArg String.data h

theorem repr_injective : Function.Injective Nat.repr := by
  intro m n h
  rw [repr_eq_natChars, repr_eq_natChars] at h
  exact natChars_injective (asString_inj h)

theorem string_data_append (s t : String) : (s ++ t).data = s.data ++ t.data := rfl

theorem repr_data (n : Nat) : (Nat.repr n).data = natChars n := by
  rw [repr_eq_natChars]; rfl

/-- A decimal representation is never a decimal representation followed by
the suffix `-bot`: the suffix contains a non-digit character. -/
theorem repr_ne_repr_append_bot (m n : Nat) : Nat.repr m ≠ Nat.repr n ++ "-bot" := by
  intro h
  have hdata := congrArg String.data h
  rw [repr_data, string_data_append, repr_data] at hdata
  have hmem : '-' ∈ natChars m := by
    rw [hdata]
    refine List.mem_append.mpr (Or.inr ?_)
    show '-' ∈ ("-bot" : String).data
    decide
  have := natChars_isDigit m '-' hmem
  simp at this

theorem repr_append_bot_inj {m n : Nat}
    (h : Nat.repr m ++ "-bot" = Nat.repr n ++ "-bot") : m = n := by
  have hdata := congrArg String.data h
  rw [string_data_append, string_data_append, repr_data, repr_data] at hdata
  exact natChars_injective (List.append_cancel_right hdata)

/-!
The chat page (`src/frontend/src/pages/ChatbotPage.tsx`).

Adjacent `Date.now()` / `new Date()` reads inside one synchronous handler
are modelled as a single clock sample per created artifact, so a message's
`id` and `timestamp` come from the same sample.
-/

/-- JavaScript `String.prototype.trim`: strip whitespace from both ends
(space, tab, newline, carriage return - the characters of
`Char.isWhitespace`). -/
def jsTrim (s : String) : String :=
  (((s.data.dropWhile Char.isWhitespace).reverse.dropWhile
    Char.isWhitespace).reverse).asString

/-- The page's connection status state. -/
inductive ConnStatus where
  | connected : ConnStatus
  | disconnected : ConnStatus
  | checking : ConnStatus
deriving DecidableEq

/-- `data.status === 'healthy'` on the parsed health response: true exactly
when the `status` property is the string `healthy`. -/
def statusIsHealthy (data : Json) : Bool :=
  match getField data "status" with
  | some (Json.str s) => s = "healthy"
  | _ => false

/-- The startup health check `checkConnection`: `GET /health`, parse the
body as JSON (the status code is never inspected), and compare
`data.status` with `'healthy'`; any rejection is caught and yields
`disconnected`. -/
def checkConnection (parse : String → Except String Json)
    (outcome : FetchOutcome) : ConnStatus :=
  match outcome with
  | FetchOutcome.networkError _ => ConnStatus.disconnected
  | FetchOutcome.response _ body =>
    match parse body with
    | Except.error _ => ConnStatus.disconnected
    | Except.ok data =>
      if statusIsHealthy data then ConnStatus.connected else ConnStatus.disconnected

/-- The sender kind of a message. -/
inductive Sender where
  | user : Sender
  | bot : Sender
deriving DecidableEq

/-- The `Message` interface of the chat page. -/
structure Message where
  id : String
  type : Sender
  content : String
  timestamp : Nat
  chat_id : String
  processing_time : Option Int
  source_agent : Option String
  debug_info : Option Json

/-- The `Conversation` interface of the chat page. -/
structure Conversation where
  id : String
  title : String

/-- The fields of a resolved `ChatResponse` that the chat page reads. -/
structure ChatResponse where
  success : Bool
  response : String
  source_agent : String
  processing_time : Option Int
  debug_info : Option Json
  error_details : Option String

/-- The chat page's state: auth user (from the context), message list,
input value, typing flag, conversation list, active chat id and connection
status. -/
structure ChatState where
  user : Option String
  messages : List Message
  inputValue : String
  isTyping : Bool
  conversations : List Conversation
  activeChatId : Option String
  connectionStatus : ConnStatus

/-- The three candidate welcome messages (apostrophes written as `\x27`). -/
def welcomeMessages : List String :=
  [ "Hello! I\x27m FloatBot, your AI assistant for ocean data analysis. What would you like to know?",
    "Greetings! I\x27m ready to help you with your ocean data queries. How can I assist?",
    "Welcome back! I can analyze ARGO float data and generate reports. What\x27s on your mind?" ]

/-- `handleNewChat`: mint a chat id from the clock, build the welcome bot
message (id suffixed `-bot`), append the conversation, activate it, and
reset the message list to the welcome message alone.  `pick` is the random
welcome index `Math.floor(Math.random() * 3)`. -/
def handleNewChat (st : ChatState) (now : Nat) (pick : Fin 3) : ChatState :=
  let newChatId := Nat.repr now
  let welcomeMessage : Message :=
    { id := Nat.repr now ++ "-bot", type := Sender.bot,
      content := welcomeMessages.getD pick.val "", timestamp := now,
      chat_id := newChatId, processing_time := none, source_agent := none,
      debug_info := none }
  { st with
    conversations := st.conversations ++ [{ id := newChatId, title := "New Chat" }],
    activeChatId := some newChatId,
    messages := [welcomeMessage] }

/-- `handleDeleteChat`: with no active chat, do nothing; otherwise drop the
active conversation, clear the active id and empty the message list. -/
def handleDeleteChat (st : ChatState) : ChatState :=
  match st.activeChatId with
  | none => st
  | some activeId =>
    { st with
      conversations := st.conversations.filter (fun c => c.id ≠ activeId),
      activeChatId := none,
      messages := [] }

/-- The user message appended by `handleSendMessage`. -/
def mkUserMessage (now : Nat) (chatId content : String) : Message :=
  { id := Nat.repr now, type := Sender.user, content := content,
    timestamp := now, chat_id := chatId, processing_time := none,
    source_agent := none, debug_info := none }

/-- The bot reply built from a successful `ChatResponse`. -/
def mkBotReply (now : Nat) (chatId : String) (r : ChatResponse) : Message :=
  { id := Nat.repr now, type := Sender.bot, content := r.response,
    timestamp := now, chat_id := chatId,
    processing_time := r.processing_time,
    source_agent := some r.source_agent,
    debug_info := r.debug_info }

/-- The bot message appended when `sendChat` rejects with message `msg`. -/
def mkErrorReply (now : Nat) (chatId msg : String) : Message :=
  { id := Nat.repr now, type := Sender.bot, content := "⚠️ " ++ msg,
    timestamp := now, chat_id := chatId, processing_time := none,
    source_agent := none, debug_info := none }

/-- The bot message appended when the backend is not connected. -/
def mkWarningMessage (now : Nat) (chatId : String) : Message :=
  { id := Nat.repr now, type := Sender.bot,
    content := "⚠️ Unable to connect to backend.", timestamp := now,
    chat_id := chatId, processing_time := none, source_agent := none,
    debug_info := none }

/-- `handleSendMessage`.  Guard: empty/whitespace input, no signed-in user
or no active chat returns immediately.  A non-connected status appends a
warning bot message without calling the api.  Otherwise the user message is
appended, the input cleared, the typing flag set, and exactly one `sendChat`
call is made; its resolution appends the bot reply, its rejection appends
an error bot message and marks the connection disconnected; either way the
typing flag is cleared.  The second component counts `sendChat` calls. -/
def handleSendMessage (st : ChatState) (tUser tBot : Nat)
    (sendResult : Except String ChatResponse) : ChatState × Nat :=
  if jsTrim st.inputValue = "" ∨ st.user = none ∨ st.activeChatId = none then (st, 0)
  else
    match st.activeChatId with
    | none => (st, 0)
    | some chatId =>
      if st.connectionStatus ≠ ConnStatus.connected then
        ({ st with messages := st.messages ++ [mkWarningMessage tUser chatId] }, 0)
      else
        let userMsg := mkUserMessage tUser chatId st.inputValue
        let st1 := { st with
          messages := st.messages ++ [userMsg], inputValue := "", isTyping := true }
        match sendResult with
        | Except.ok r =>
          ({ st1 with
             messages := st1.messages ++ [mkBotReply tBot chatId r],
             isTyping := false }, 1)
        | Except.error msg =>
          ({ st1 with
             messages := st1.messages ++ [mkErrorReply tBot chatId msg],
             isTyping := false,
             connectionStatus := ConnStatus.disconnected }, 1)

/-- One user-driven chat operation, with the clock samples it consumes. -/
inductive ChatOp where
  | newChat (t : Nat) (pick : Fin 3) : ChatOp
  | setInput (s : String) : ChatOp
  | send (tUser tBot : Nat) (result : Except String ChatResponse) : ChatOp
  | selectChat (id : String) : ChatOp
  | deleteChat : ChatOp

/-- State transition of one operation. -/
def step (st : ChatState) : ChatOp → ChatState
  | ChatOp.newChat t pick => handleNewChat st t pick
  | ChatOp.setInput s => { st with inputValue := s }
  | ChatOp.send tUser tBot result => (handleSendMessage st tUser tBot result).1
  | ChatOp.selectChat id => { st with activeChatId := some id }
  | ChatOp.deleteChat => handleDeleteChat st

/-- Run a sequence of operations. -/
def run (st : ChatState) : List ChatOp → ChatState
  | [] => st
  | op :: ops => run (step st op) ops

/-- The clock samples an operation may consume, in order. -/
def opTimes : ChatOp → List Nat
  | ChatOp.newChat t _ => [t]
  | ChatOp.send tUser tBot _ => [tUser, tBot]
  | _ => []

/-- All clock samples of a trace, in order. -/
def traceTimes : List ChatOp → List Nat
  | [] => []
  | op :: ops => opTimes op ++ traceTimes ops

/-- The chat page's state on mount, before any operation: no messages, no
conversations, empty input, no active chat.  The signed-in user and the
result of the startup health check are parameters. -/
def initState (u : Option String) (cs : ConnStatus) : ChatState :=
  { user := u, messages := [], inputValue := "", isTyping := false,
    conversations := [], activeChatId := none, connectionStatus := cs }

/-!
The dashboard `/visualize` fetchers.  Two variants exist in the repository:
`DashPlain` posts `parameter`/`date_range`/`region` and treats the whole
2xx body as a single figure; `DashModes` additionally posts
`mode: "dashboard"` and decodes `map_figure`/`chart_figure` (each a JSON
string that is parsed again with `JSON.parse`).
-/

/- The single-figure variant (`src/frontend/src/pages/DashboardPage.tsx`,
`fetchVisualizationData`). -/
namespace DashPlain

/-- State set by this fetcher: figure, error banner, loading flag. -/
structure VizState where
  plotFigure : Option Json
  error : Option String
  isLoading : Bool

/-- The request this variant issues: `POST /visualize` with body
`JSON.stringify({ parameter, date_range, region })` - no `mode` field. -/
def vizRequest (parameter dateRange region : String) : Request :=
  { method := "POST"
    url := "http://localhost:8000/visualize"
    body := Json.obj [("parameter", Json.str parameter),
                      ("date_range", Json.str dateRange),
                      ("region", Json.str region)] }

/-- `fetchVisualizationData`: one fetch; the body is parsed BEFORE the
status check; on a non-ok status the error shown is
`figureJson.error_details || 'Failed to fetch plot data.'`; on an ok status
the whole parsed body becomes the plot figure.  Every rejection is caught
and stored in `error`. -/
def fetchVisualizationData (parse : String → Except String Json)
    (parameter dateRange region : String) (outcome : FetchOutcome) :
    List Request × VizState :=
  ( [vizRequest parameter dateRange region],
    match outcome with
    | FetchOutcome.networkError msg =>
      { plotFigure := none, error := some msg, isLoading := false }
    | FetchOutcome.response status body =>
      match parse body with
      | Except.error e =>
        { plotFigure := none, error := some e, isLoading := false }
      | Except.ok figureJson =>
        if respOk status then
          { plotFigure := some figureJson, error := none, isLoading := false }
        else
          { plotFigure := none,
            error := some (jsOrElse (getField figureJson "error_details")
              "Failed to fetch plot data."),
            isLoading := false } )

end DashPlain

/- The map/chart variant (the dashboard bundled in
`src/frontend/src/pages/SignInPage.tsx`, `fetchVisualizationData`). -/
namespace DashModes

/-- State set by this fetcher. -/
structure VizState where
  mapFigure : Option Json
  chartFigure : Option Json
  error : Option String
  isLoading : Bool

/-- The request this variant issues: `POST /visualize` with body
`JSON.stringify({ parameter, date_range, region, mode: 'dashboard' })`. -/
def vizRequest (parameter dateRange region : String) : Request :=
  { method := "POST"
    url := "http://localhost:8000/visualize"
    body := Json.obj [("parameter", Json.str parameter),
                      ("date_range", Json.str dateRange),
                      ("region", Json.str region),
                      ("mode", Json.str "dashboard")] }

/-- `figureJson.field ? ... : null`: the field when truthy, else nothing. -/
def truthyField (fig : Json) (key : String) : Option Json :=
  match getField fig key with
  | some j => if truthy j then some j else none
  | none => none

/-- `JSON.parse(x)`: a non-string argument is coerced to a string first. -/
def jsonParseArg (parse : String → Except String Json) : Json → Except String Json
  | Json.str s => parse s
  | other => parse (jsToString other)

/-- Decoding of a 2xx body: parse `map_figure` if truthy, then
`chart_figure` if truthy (a throw from either `JSON.parse` is caught and
stored in `error`; a throw while decoding the chart leaves the already-set
map figure in place); if neither field is truthy the error becomes
`figureJson.message || 'No visualization returned.'`. -/
def decodeFigures (parse : String → Except String Json) (figureJson : Json) : VizState :=
  match truthyField figureJson "map_figure" with
  | some mj =>
    match jsonParseArg parse mj with
    | Except.error e =>
      { mapFigure := none, chartFigure := none, error := some e, isLoading := false }
    | Except.ok mv =>
      match truthyField figureJson "chart_figure" with
      | some cj =>
        match jsonParseArg parse cj with
        | Except.error e =>
          { mapFigure := some mv, chartFigure := none, error := some e, isLoading := false }
        | Except.ok cv =>
          { mapFigure := some mv, chartFigure := some cv, error := none, isLoading := false }
      | none =>
        { mapFigure := some mv, chartFigure := none, error := none, isLoading := false }
  | none =>
    match truthyField figureJson "chart_figure" with
    | some cj =>
      match jsonParseArg parse cj with
      | Except.error e =>
        { mapFigure := none, chartFigure := none, error := some e, isLoading := false }
      | Except.ok cv =>
        { mapFigure := none, chartFigure := some cv, error := none, isLoading := false }
    | none =>
      { mapFigure := none, chartFigure := none,
        error := some (jsOrElse (getField figureJson "message") "No visualization returned."),
        isLoading := false }

/-- `fetchVisualizationData` of the map/chart variant: one fetch; the body
is parsed before the status check; a non-ok status shows
`figureJson.error_details || figureJson.message || 'Failed to fetch plot
data.'`; an ok status decodes the figures. -/
def fetchVisualizationData (parse : String → Except String Json)
    (parameter dateRange region : String) (outcome : FetchOutcome) :
    List Request × VizState :=
  ( [vizRequest parameter dateRange region],
    match outcome with
    | FetchOutcome.networkError msg =>
      { mapFigure := none, chartFigure := none, error := some msg, isLoading := false }
    | FetchOutcome.response status body =>
      match parse body with
      | Except.error e =>
        { mapFigure := none, chartFigure := none, error := some e, isLoading := false }
      | Except.ok figureJson =>
        if respOk status then decodeFigures parse figureJson
        else
          { mapFigure := none, chartFigure := none,
            error := some (jsOrElse (getField figureJson "error_details")
              (jsOrElse (getField figureJson "message") "Failed to fetch plot data.")),
            isLoading := false } )

end DashModes

/-!
The reports page (bundled in `DashboardPage.tsx`): parameter toggle.  Both
copies of the page define the identical toggle.
-/

/-- `handleParameterToggle`: remove the id when present (via `filter`),
append it otherwise. -/
def handleParameterToggle (paramId : String) (prev : List String) : List String :=
  if prev.contains paramId then prev.filter (fun id => id ≠ paramId)
  else prev ++ [paramId]

/-!
The mock authentication context (`src/unnamed/part_002`).
-/

/-- The `User` object built by the mock sign-in (the optional `name` field
of the interface is always set by `signIn`). -/
structure User where
  id : String
  email : String
  name : String

/-- The auth context state plus the browser local storage it writes. -/
structure AuthState where
  user : Option User
  token : Option String
  store : List (String × String)
  loading : Bool

/-- `localStorage.setItem`. -/
def setItem (store : List (String × String)) (key value : String) :
    List (String × String) :=
  (key, value) :: store

/-- `localStorage.getItem` (the most recent write wins). -/
def getItem : List (String × String) → String → Option String
  | [], _ => none
  | (k, v) :: rest, key => if k = key then some v else getItem rest key

/-- Minimal JSON string escaping as performed by `JSON.stringify` on the
characters occurring in practice (quote, backslash, newline, tab, CR). -/
def jsonEscapeChar (c : Char) : String :=
  if c = '"' then "\\\""
  else if c = '\\' then "\\\\"
  else if c = '\n' then "\\n"
  else if c = '\t' then "\\t"
  else if c = '\r' then "\\r"
  else String.singleton c

def jsonEscape (s : String) : String :=
  s.foldl (fun acc c => acc ++ jsonEscapeChar c) ""

/-- `JSON.stringify({ id, email, name })` for the mock user (property
order as in the object literal). -/
def renderUser (u : User) : String :=
  "\x7b\"id\":\"" ++ jsonEscape u.id ++ "\",\"email\":\"" ++ jsonEscape u.email ++
    "\",\"name\":\"" ++ jsonEscape u.name ++ "\"\x7d"

/-- `email.split('@')[0]`: the longest prefix of the email containing no
`@` (the whole email when it has none). -/
def emailLocalPart (email : String) : String :=
  email.takeWhile (fun c => c != '@')

/-- `signIn` from the auth context: after the mock delay it
unconditionally succeeds; it never reads the password; it builds
`token_<now>` and the user `user_<now>` with the given email and the name
`email.split('@')[0]`, writes both to local storage under
`floatchat_token` / `floatchat_user` (the user JSON-serialized), and sets
the context state. -/
def signIn (st : AuthState) (email _password : String) (now : Nat) : AuthState :=
  let mockToken := "token_" ++ Nat.repr now
  let mockUser : User :=
    { id := "user_" ++ Nat.repr now, email := email, name := emailLocalPart email }
  { user := some mockUser,
    token := some mockToken,
    store := setItem (setItem st.store "floatchat_token" mockToken)
      "floatchat_user" (renderUser mockUser),
    loading := false }

/-!
Claims.
-/

/-- The conditions under which a fetch-and-parse wrapper rejects: network
failure, non-2xx status, or JSON parse failure of the body. -/
def fetchRejects (parse : String → Except String Json) : FetchOutcome → Prop
  | FetchOutcome.networkError _ => True
  | FetchOutcome.response status body =>
    respOk status = false ∨ ∃ e, parse body = Except.error e

/-- C1 counterexample: the `sendChat` of `src/unnamed/part_003` does not
send a body consisting of exactly the fields `query` and `session_id` - it
also sends `include_debug`. -/
theorem sendChat_legacy_body_not_two_fields :
    ¬ fieldNames (ApiLegacy.chatRequest "hello" "chat1" false).body =
      ["query", "session_id"] := by
  decide

/-- C1 (amended): the `sendChat` of `src/unnamed/part_004` issues exactly
one POST to `/chat` whose body consists of exactly `query` and
`session_id` with the given values; the `src/unnamed/part_003` variant
issues exactly one POST to `/chat` whose body additionally carries
`include_debug` (`false` at the chat page's two-argument call); both
resolve with the response body parsed as JSON on a 2xx response. -/
theorem sendChat_request_contract (parse : String → Except String Json)
    (query sessionId : String) (outcome : FetchOutcome) :
    (ApiCurrent.sendChat parse query sessionId outcome).1 =
      [{ method := "POST", url := "http://localhost:8000/chat",
         body := Json.obj [("query", Json.str query),
                           ("session_id", Json.str sessionId)] }] ∧
    (ApiLegacy.sendChat parse query sessionId false outcome).1 =
      [{ method := "POST", url := "http://localhost:8000/chat",
         body := Json.obj [("query", Json.str query),
                           ("session_id", Json.str sessionId),
                           ("include_debug", Json.bool false)] }] ∧
    (∀ status body v, outcome = FetchOutcome.response status body →
      respOk status = true → parse body = Except.ok v →
      (ApiCurrent.sendChat parse query sessionId outcome).2 = Except.ok v ∧
      (ApiLegacy.sendChat parse query sessionId false outcome).2 = Except.ok v) := by
  refine ⟨rfl, rfl, ?_⟩
  rintro status body v rfl hok hparse
  constructor <;> simp [ApiCurrent.sendChat, ApiLegacy.sendChat, hok, hparse]

/-- Witness for `sendChat_request_contract` at a concrete 2xx outcome. -/
theorem sendChat_request_contract_witness :
    (ApiCurrent.sendChat (fun _ => Except.ok Json.null) "hello" "chat1"
      (FetchOutcome.response 200 "null")).2 = Except.ok Json.null := by
  have h := sendChat_request_contract (fun _ => Except.ok Json.null) "hello" "chat1"
    (FetchOutcome.response 200 "null")
  exact (h.2.2 200 "null" Json.null rfl (by decide) rfl).1

/-- C2: each `sendChat` call (either variant) performs exactly one fetch -
no retries, no backoff - and rejects precisely when the network request
fails, the status is not 2xx, or parsing the body as JSON fails; a non-2xx
rejection message contains the decimal status code. -/
theorem sendChat_error_contract (parse : String → Except String Json)
    (query sessionId : String) (outcome : FetchOutcome) :
    (ApiCurrent.sendChat parse query sessionId outcome).1.length = 1 ∧
    (ApiLegacy.sendChat parse query sessionId false outcome).1.length = 1 ∧
    ((∃ e, (ApiCurrent.sendChat parse query sessionId outcome).2 = Except.error e) ↔
      fetchRejects parse outcome) ∧
    ((∃ e, (ApiLegacy.sendChat parse query sessionId false outcome).2 = Except.error e) ↔
      fetchRejects parse outcome) ∧
    (∀ status body, outcome = FetchOutcome.response status body →
      respOk status = false →
      (∃ pre post, (ApiCurrent.sendChat parse query sessionId outcome).2 =
        Except.error (pre ++ Nat.repr status ++ post)) ∧
      (∃ pre post, (ApiLegacy.sendChat parse query sessionId false outcome).2 =
        Except.error (pre ++ Nat.repr status ++ post))) := by
  refine ⟨rfl, rfl, ?_, ?_, ?_⟩
  · cases outcome with
    | networkError m => simp [ApiCurrent.sendChat, fetchRejects]
    | response status body =>
      by_cases hok : respOk status
      · cases hparse : parse body with
        | ok v => simp [ApiCurrent.sendChat, fetchRejects, hok, hparse]
        | error e => simp [ApiCurrent.sendChat, fetchRejects, hok, hparse]
      · simp [ApiCurrent.sendChat, fetchRejects, hok]
  · cases outcome with
    | networkError m => simp [ApiLegacy.sendChat, fetchRejects]
    | response status body =>
      by_cases hok : respOk status
      · cases hparse : parse body with
        | ok v => simp [ApiLegacy.sendChat, fetchRejects, hok, hparse]
        | error e => simp [ApiLegacy.sendChat, fetchRejects, hok, hparse]
      · simp [ApiLegacy.sendChat, fetchRejects, hok]
  · rintro status body rfl hok
    constructor
    · exact ⟨"HTTP error! status: ", " - " ++ body, by
        simp [ApiCurrent.sendChat, hok, String.append_assoc]⟩
    · exact ⟨"HTTP error! status: ", "", by
        simp [ApiLegacy.sendChat, hok]⟩

/-- Witness for `sendChat_error_contract` at a concrete 404 outcome. -/
theorem sendChat_error_contract_witness :
    ∃ pre post, (ApiCurrent.sendChat (fun _ => Except.ok Json.null) "q" "s"
      (FetchOutcome.response 404 "nope")).2 =
      Except.error (pre ++ Nat.repr 404 ++ post) := by
  have h := sendChat_error_contract (fun _ => Except.ok Json.null) "q" "s"
    (FetchOutcome.response 404 "nope")
  exact (h.2.2.2.2 404 "nope" rfl (by decide)).1

theorem statusIsHealthy_iff (data : Json) :
    statusIsHealthy data = true ↔
      getField data "status" = some (Json.str "healthy") := by
  unfold statusIsHealthy
  cases h : getField data "status" with
  | none => simp
  | some j => cases j <;> simp [decide_eq_true_iff]

/-- C5: after the startup health check, the connection status is
`connected` exactly when the `GET /health` body parsed as JSON has a
`status` field equal to `"healthy"`; a fetch failure or a parse failure
yields `disconnected`. -/
theorem checkConnection_contract (parse : String → Except String Json)
    (outcome : FetchOutcome) :
    (checkConnection parse outcome = ConnStatus.connected ↔
      ∃ status body data, outcome = FetchOutcome.response status body ∧
        parse body = Except.ok data ∧
        getField data "status" = some (Json.str "healthy")) ∧
    (∀ m, outcome = FetchOutcome.networkError m →
      checkConnection parse outcome = ConnStatus.disconnected) ∧
    (∀ status body e, outcome = FetchOutcome.response status body →
      parse body = Except.error e →
      checkConnection parse outcome = ConnStatus.disconnected) := by
  refine ⟨?_, ?_, ?_⟩
  · cases outcome with
    | networkError m => simp [checkConnection]
    | response status body =>
      cases hparse : parse body with
      | error e => simp [checkConnection, hparse]
      | ok data =>
        by_cases hh : statusIsHealthy data
        · simp only [checkConnection, hparse, hh, if_true]
          constructor
          · intro _
            exact ⟨status, body, data, rfl, hparse, (statusIsHealthy_iff data).mp hh⟩
          · intro _; trivial
        · have : ¬ getField data "status" = some (Json.str "healthy") := by
            intro hg
            exact hh ((statusIsHealthy_iff data).mpr hg)
          simp [checkConnection, hparse, hh, this]
  · rintro m rfl; rfl
  · rintro status body e rfl hparse
    simp [checkConnection, hparse]

/-- Witness for `checkConnection_contract`: a healthy body connects, a
parse failure disconnects. -/
theorem checkConnection_contract_witness :
    checkConnection (fun _ => Except.error "bad json")
      (FetchOutcome.response 200 "x") = ConnStatus.disconnected := by
  have h := checkConnection_contract (fun _ => Except.error "bad json")
    (FetchOutcome.response 200 "x")
  exact h.2.2 200 "x" "bad json" rfl rfl

/-- C6: `signIn` always succeeds, ignores the password, stores the mock
token under `floatchat_token` and the JSON-serialized user under
`floatchat_user`, and sets the signed-in user to the given email with name
`email.split('@')[0]` (the part of the email before the first `@`). -/
theorem signIn_contract (st : AuthState) (email pw pw' : String) (now : Nat) :
    signIn st email pw now = signIn st email pw' now ∧
    (signIn st email pw now).user =
      some { id := "user_" ++ Nat.repr now, email := email,
             name := emailLocalPart email } ∧
    (signIn st email pw now).token = some ("token_" ++ Nat.repr now) ∧
    getItem (signIn st email pw now).store "floatchat_token" =
      some ("token_" ++ Nat.repr now) ∧
    getItem (signIn st email pw now).store "floatchat_user" =
      some (renderUser { id := "user_" ++ Nat.repr now, email := email,
                         name := emailLocalPart email }) := by
  refine ⟨rfl, rfl, rfl, ?_, ?_⟩ <;> simp [signIn, setItem, getItem]

/-- C8 counterexample: on a 2xx response whose body fails to parse as
JSON, `getSystemHealth` does not resolve with `{status: 'disconnected'}` -
it rejects with the parse error, because the source returns
`response.json()` without `await`, so the rejection escapes the catch. -/
theorem getSystemHealth_rejects_on_parse_failure :
    ApiCurrent.getSystemHealth (fun _ => Except.error "SyntaxError: Unexpected token")
      (FetchOutcome.response 200 "not json") =
      Except.error "SyntaxError: Unexpected token" ∧
    (Except.error "SyntaxError: Unexpected token" : Except String Json) ≠
      Except.ok ApiCurrent.disconnectedHealth := by
  exact ⟨rfl, by simp⟩

/-- C8 (amended): `getSystemHealth` resolves with `{status: 'disconnected'}`
on network failure or a non-2xx status; on a 2xx status it adopts the JSON
parse result as-is, so a parse failure rejects the returned promise. -/
theorem getSystemHealth_contract (parse : String → Except String Json)
    (outcome : FetchOutcome) :
    (∀ m, outcome = FetchOutcome.networkError m →
      ApiCurrent.getSystemHealth parse outcome =
        Except.ok ApiCurrent.disconnectedHealth) ∧
    (∀ status body, outcome = FetchOutcome.response status body →
      respOk status = false →
      ApiCurrent.getSystemHealth parse outcome =
        Except.ok ApiCurrent.disconnectedHealth) ∧
    (∀ status body, outcome = FetchOutcome.response status body →
      respOk status = true →
      ApiCurrent.getSystemHealth parse outcome = parse body) := by
  refine ⟨?_, ?_, ?_⟩
  · rintro m rfl; rfl
  · rintro status body rfl hok
    simp [ApiCurrent.getSystemHealth, hok]
  · rintro status body rfl hok
    simp [ApiCurrent.getSystemHealth, hok]

/-- Witness for `getSystemHealth_contract` at a concrete 500 outcome. -/
theorem getSystemHealth_contract_witness :
    ApiCurrent.getSystemHealth (fun _ => Except.ok Json.null)
      (FetchOutcome.response 500 "oops") =
      Except.ok ApiCurrent.disconnectedHealth := by
  have h := getSystemHealth_contract (fun _ => Except.ok Json.null)
    (FetchOutcome.response 500 "oops")
  exact h.2.1 500 "oops" rfl (by decide)

/-- C9: with empty or whitespace-only input, or no signed-in user, or no
active chat, `handleSendMessage` issues no request and returns the state
unchanged (messages, conversations and input value included). -/
theorem handleSendMessage_guard (st : ChatState) (tUser tBot : Nat)
    (r : Except String ChatResponse)
    (h : jsTrim st.inputValue = "" ∨ st.user = none ∨ st.activeChatId = none) :
    handleSendMessage st tUser tBot r = (st, 0) := by
  unfold handleSendMessage
  rw [if_pos h]

/-- Witness for `handleSendMessage_guard`: with no signed-in user nothing
happens. -/
theorem handleSendMessage_guard_witness :
    handleSendMessage (initState none ConnStatus.connected) 1 2
      (Except.error "e") = (initState none ConnStatus.connected, 0) :=
  handleSendMessage_guard _ 1 2 _ (Or.inr (Or.inl rfl))

/-- C10: toggling the same parameter id twice leaves the set of selected
ids unchanged (for a duplicate-free selection, as maintained by the page). -/
theorem handleParameterToggle_involutive (paramId : String) (prev : List String)
    (_hnd : prev.Nodup) (x : String) :
    x ∈ handleParameterToggle paramId (handleParameterToggle paramId prev) ↔
      x ∈ prev := by
  by_cases hmem : paramId ∈ prev
  · have h1 : handleParameterToggle paramId prev =
        prev.filter (fun id => id ≠ paramId) := by
      simp [handleParameterToggle, hmem]
    have h2 : paramId ∉ prev.filter (fun id => id ≠ paramId) := by
      simp [List.mem_filter]
    rw [h1]
    have h3 : handleParameterToggle paramId (prev.filter (fun id => id ≠ paramId)) =
        prev.filter (fun id => id ≠ paramId) ++ [paramId] := by
      simp [handleParameterToggle, List.elem_eq_mem, h2]
    rw [h3]
    by_cases hx : x = paramId
    · subst hx; simp [hmem]
    · simp [List.mem_filter, hx]
  · have h1 : handleParameterToggle paramId prev = prev ++ [paramId] := by
      simp [handleParameterToggle, List.elem_eq_mem, hmem]
    have h2 : paramId ∈ prev ++ [paramId] := by simp
    have h3 : handleParameterToggle paramId (prev ++ [paramId]) =
        (prev ++ [paramId]).filter (fun id => id ≠ paramId) := by
      simp [handleParameterToggle, List.elem_eq_mem, h2]
    rw [h1, h3]
    by_cases hx : x = paramId
    · subst hx; simp [List.mem_filter, hmem]
    · simp [List.mem_filter, hx]

/-- Witness for `handleParameterToggle_involutive` on a concrete selection. -/
theorem handleParameterToggle_involutive_witness :
    "salinity" ∈ handleParameterToggle "temperature"
      (handleParameterToggle "temperature" ["temperature", "salinity"]) ↔
      "salinity" ∈ ["temperature", "salinity"] :=
  handleParameterToggle_involutive "temperature" ["temperature", "salinity"]
    (by decide) "salinity"

/-- C3: when `sendChat` resolves for the active chat, exactly one bot
message is appended, carrying the response's `response` text and its
`processing_time`, `source_agent` and `debug_info`; every earlier message,
including the just-appended user message, is unchanged (the new list is
the old list extended by the user message and then the bot reply). -/
theorem handleSendMessage_success (st : ChatState) (tUser tBot : Nat)
    (r : ChatResponse) (chatId : String)
    (hin : ¬ jsTrim st.inputValue = "") (hu : ¬ st.user = none)
    (hc : st.activeChatId = some chatId)
    (hconn : st.connectionStatus = ConnStatus.connected) :
    handleSendMessage st tUser tBot (Except.ok r) =
      ({ st with
         messages := (st.messages ++ [mkUserMessage tUser chatId st.inputValue]) ++
           [mkBotReply tBot chatId r],
         inputValue := "", isTyping := false }, 1) ∧
    (mkBotReply tBot chatId r).type = Sender.bot ∧
    (mkBotReply tBot chatId r).content = r.response ∧
    (mkBotReply tBot chatId r).processing_time = r.processing_time ∧
    (mkBotReply tBot chatId r).source_agent = some r.source_agent ∧
    (mkBotReply tBot chatId r).debug_info = r.debug_info := by
  refine ⟨?_, rfl, rfl, rfl, rfl, rfl⟩
  obtain ⟨u, msgs, input, typ, convs, act, conn⟩ := st
  simp only at hin hu hc hconn
  subst hc
  subst hconn
  unfold handleSendMessage
  rw [if_neg (by simp [hin, hu])]
  simp

/-- Witness for `handleSendMessage_success` on a concrete state and reply. -/
theorem handleSendMessage_success_witness :
    handleSendMessage
      (ChatState.mk (some "u") [] "hi" false [] (some "1") ConnStatus.connected) 2 3
      (Except.ok (ChatResponse.mk true "42 floats" "sql" (some 1) none none)) =
      (ChatState.mk (some "u")
        [mkUserMessage 2 "1" "hi",
         mkBotReply 3 "1" (ChatResponse.mk true "42 floats" "sql" (some 1) none none)]
        "" false [] (some "1") ConnStatus.connected, 1) := by
  have h := handleSendMessage_success
    (ChatState.mk (some "u") [] "hi" false [] (some "1") ConnStatus.connected) 2 3
    (ChatResponse.mk true "42 floats" "sql" (some 1) none none)
    "1" (by decide) (by simp) rfl rfl
  simpa using h.1

/-- The shape of every message id the chat page mints: the decimal clock
sample, possibly suffixed `-bot` (the welcome message). -/
def IdShape (m : Message) : Prop :=
  m.id = Nat.repr m.timestamp ∨ m.id = Nat.repr m.timestamp ++ "-bot"

/-- The message ids are pairwise distinct and well-shaped. -/
def IdsOkL (l : List Message) : Prop :=
  (l.map Message.id).Nodup ∧ ∀ m ∈ l, IdShape m

/-- Every current message predates all the given clock samples. -/
def FreshFor (st : ChatState) (ts : List Nat) : Prop :=
  ∀ m ∈ st.messages, ∀ t ∈ ts, m.timestamp < t

theorem idshape_ne_plain {m : Message} {t : Nat} (hs : IdShape m)
    (hlt : m.timestamp < t) : m.id ≠ Nat.repr t := by
  rcases hs with h | h
  · rw [h]
    intro hh
    exact absurd (repr_injective hh) (Nat.ne_of_lt hlt)
  · rw [h]
    intro hh
    exact repr_ne_repr_append_bot t m.timestamp hh.symm

theorem idshape_ne_bot {m : Message} {t : Nat} (hs : IdShape m)
    (hlt : m.timestamp < t) : m.id ≠ Nat.repr t ++ "-bot" := by
  rcases hs with h | h
  · rw [h]
    exact repr_ne_repr_append_bot m.timestamp t
  · rw [h]
    intro hh
    exact absurd (repr_append_bot_inj hh) (Nat.ne_of_lt hlt)

theorem idsOkL_append (l : List Message) (m : Message)
    (h : IdsOkL l) (hm : IdShape m)
    (hne : ∀ x ∈ l, x.id ≠ m.id) : IdsOkL (l ++ [m]) := by
  constructor
  · rw [List.map_append, List.nodup_append]
    refine ⟨h.1, List.nodup_singleton _, ?_⟩
    intro a ha hb
    simp only [List.map_cons, List.map_nil, List.mem_singleton] at hb
    subst hb
    rcases List.mem_map.mp ha with ⟨x, hx, hxid⟩
    exact hne x hx hxid
  · intro x hx
    rcases List.mem_append.mp hx with h1 | h2
    · exact h.2 x h1
    · rw [List.mem_singleton] at h2
      subst h2
      exact hm

/-- The four possible effects of `handleSendMessage` on the message list:
unchanged, warning appended, user message and bot reply appended, or user
message and error reply appended. -/
theorem handleSendMessage_messages (st : ChatState) (tU tB : Nat)
    (res : Except String ChatResponse) :
    (handleSendMessage st tU tB res).1.messages = st.messages ∨
    (∃ chatId, st.activeChatId = some chatId ∧
      (handleSendMessage st tU tB res).1.messages =
        st.messages ++ [mkWarningMessage tU chatId]) ∨
    (∃ chatId r, st.activeChatId = some chatId ∧ res = Except.ok r ∧
      (handleSendMessage st tU tB res).1.messages =
        (st.messages ++ [mkUserMessage tU chatId st.inputValue]) ++
          [mkBotReply tB chatId r]) ∨
    (∃ chatId msg, st.activeChatId = some chatId ∧ res = Except.error msg ∧
      (handleSendMessage st tU tB res).1.messages =
        (st.messages ++ [mkUserMessage tU chatId st.inputValue]) ++
          [mkErrorReply tB chatId msg]) := by
  by_cases hg : jsTrim st.inputValue = "" ∨ st.user = none ∨ st.activeChatId = none
  · left
    simp [handleSendMessage, hg]
  · push_neg at hg
    obtain ⟨hg1, hg2, hg3⟩ := hg
    cases hact : st.activeChatId with
    | none => exact absurd hact hg3
    | some chatId =>
      by_cases hconn : st.connectionStatus = ConnStatus.connected
      · cases res with
        | ok r =>
          right; right; left
          exact ⟨chatId, r, rfl, rfl,
            by simp [handleSendMessage, hg1, hg2, hact, hconn]⟩
        | error msg =>
          right; right; right
          exact ⟨chatId, msg, rfl, rfl,
            by simp [handleSendMessage, hg1, hg2, hact, hconn]⟩
      · right; left
        exact ⟨chatId, rfl, by simp [handleSendMessage, hg1, hg2, hact, hconn]⟩

/-- Every message after a step is an old message or carries one of the
step's clock samples as its timestamp. -/
theorem step_messages_origin (st : ChatState) (op : ChatOp) :
    ∀ m ∈ (step st op).messages, m ∈ st.messages ∨ m.timestamp ∈ opTimes op := by
  cases op with
  | newChat t pick =>
    intro m hm
    simp only [step, handleNewChat, List.mem_singleton] at hm
    subst hm
    right
    simp [opTimes]
  | setInput s => intro m hm; left; exact hm
  | selectChat id => intro m hm; left; exact hm
  | deleteChat =>
    intro m hm
    simp only [step, handleDeleteChat] at hm
    cases hact : st.activeChatId with
    | none => rw [hact] at hm; left; exact hm
    | some activeId => rw [hact] at hm; cases hm
  | send tU tB res =>
    intro m hm
    rcases handleSendMessage_messages st tU tB res with h | ⟨c, _, h⟩ |
      ⟨c, r, _, _, h⟩ | ⟨c, msg, _, _, h⟩ <;>
      rw [show (step st (ChatOp.send tU tB res)).messages =
        (handleSendMessage st tU tB res).1.messages from rfl, h] at hm
    · left; exact hm
    · rcases List.mem_append.mp hm with h1 | h2
      · left; exact h1
      · rw [List.mem_singleton] at h2
        subst h2
        right; simp [opTimes, mkWarningMessage]
    · rcases List.mem_append.mp hm with h1 | h2
      · rcases List.mem_append.mp h1 with h3 | h4
        · left; exact h3
        · rw [List.mem_singleton] at h4
          subst h4
          right; simp [opTimes, mkUserMessage]
      · rw [List.mem_singleton] at h2
        subst h2
        right; simp [opTimes, mkBotReply]
    · rcases List.mem_append.mp hm with h1 | h2
      · rcases List.mem_append.mp h1 with h3 | h4
        · left; exact h3
        · rw [List.mem_singleton] at h4
          subst h4
          right; simp [opTimes, mkUserMessage]
      · rw [List.mem_singleton] at h2
        subst h2
        right; simp [opTimes, mkErrorReply]

/-- One step preserves distinctness and shape of the ids, provided its
clock samples are fresh and strictly increasing. -/
theorem step_preserves_idsOk (st : ChatState) (op : ChatOp)
    (h : IdsOkL st.messages) (hfresh : FreshFor st (opTimes op))
    (hop : (opTimes op).Pairwise (· < ·)) : IdsOkL (step st op).messages := by
  cases op with
  | newChat t pick =>
    refine ⟨List.nodup_singleton _, ?_⟩
    intro m hm
    simp only [step, handleNewChat, List.mem_singleton] at hm
    subst hm
    right
    rfl
  | setInput s => exact h
  | selectChat id => exact h
  | deleteChat =>
    show IdsOkL (handleDeleteChat st).messages
    unfold handleDeleteChat
    cases st.activeChatId with
    | none => exact h
    | some activeId => exact ⟨List.nodup_nil, by intro m hm; cases hm⟩
  | send tU tB res =>
    have htU : tU ∈ opTimes (ChatOp.send tU tB res) := by simp [opTimes]
    have htB : tB ∈ opTimes (ChatOp.send tU tB res) := by simp [opTimes]
    have htUtB : tU < tB := by
      have := List.pairwise_cons.mp hop
      exact this.1 tB (List.mem_singleton.mpr rfl)
    rcases handleSendMessage_messages st tU tB res with hmsg | ⟨c, _, hmsg⟩ |
      ⟨c, r, _, _, hmsg⟩ | ⟨c, msg, _, _, hmsg⟩ <;>
      rw [show (step st (ChatOp.send tU tB res)).messages =
        (handleSendMessage st tU tB res).1.messages from rfl, hmsg]
    · exact h
    · refine idsOkL_append _ _ h (Or.inl rfl) ?_
      intro x hx
      exact idshape_ne_plain (h.2 x hx) (hfresh x hx tU htU)
    · refine idsOkL_append _ _ ?_ (Or.inl rfl) ?_
      · refine idsOkL_append _ _ h (Or.inl rfl) ?_
        intro x hx
        exact idshape_ne_plain (h.2 x hx) (hfresh x hx tU htU)
      · intro x hx
        rcases List.mem_append.mp hx with h1 | h2
        · exact idshape_ne_plain (h.2 x h1) (hfresh x h1 tB htB)
        · rw [List.mem_singleton] at h2
          subst h2
          show Nat.repr tU ≠ Nat.repr tB
          intro hh
          exact absurd (repr_injective hh) (Nat.ne_of_lt htUtB)
    · refine idsOkL_append _ _ ?_ (Or.inl rfl) ?_
      · refine idsOkL_append _ _ h (Or.inl rfl) ?_
        intro x hx
        exact idshape_ne_plain (h.2 x hx) (hfresh x hx tU htU)
      · intro x hx
        rcases List.mem_append.mp hx with h1 | h2
        · exact idshape_ne_plain (h.2 x h1) (hfresh x h1 tB htB)
        · rw [List.mem_singleton] at h2
          subst h2
          show Nat.repr tU ≠ Nat.repr tB
          intro hh
          exact absurd (repr_injective hh) (Nat.ne_of_lt htUtB)

/-- A run from a good state with fresh, strictly increasing clock samples
keeps the message ids distinct and well-shaped. -/
theorem run_preserves_idsOk : ∀ (ops : List ChatOp) (st : ChatState),
    IdsOkL st.messages → FreshFor st (traceTimes ops) →
    (traceTimes ops).Pairwise (· < ·) → IdsOkL (run st ops).messages := by
  intro ops
  induction ops with
  | nil => intro st h _ _; exact h
  | cons op rest ih =>
    intro st h hfresh hpw
    rw [show traceTimes (op :: rest) = opTimes op ++ traceTimes rest from rfl,
      List.pairwise_append] at hpw
    obtain ⟨hp1, hp2, hcross⟩ := hpw
    rw [show run st (op :: rest) = run (step st op) rest from rfl]
    apply ih
    · exact step_preserves_idsOk st op h
        (fun m hm t ht => hfresh m hm t (List.mem_append.mpr (Or.inl ht))) hp1
    · intro m hm t ht
      rcases step_messages_origin st op m hm with hold | hnew
      · exact hfresh m hold t (List.mem_append.mpr (Or.inr ht))
      · exact hcross m.timestamp hnew t ht
    · exact hp2

/-- C7 counterexample: message ids are minted from `Date.now()`, so two
messages created at the same millisecond collide.  In a trace where the
user message and the error reply of one send share the clock value `2`,
the message list ends with two messages of id `"2"`. -/
theorem message_ids_can_collide :
    ¬ ((run (initState (some "u") ConnStatus.connected)
        [ChatOp.newChat 1 0, ChatOp.setInput "hi",
         ChatOp.send 2 2 (Except.error "boom")]).messages.map Message.id).Nodup := by
  decide

/-- C7 (amended): provided every `Date.now()` sample of the trace is
strictly larger than all earlier ones (ties are exactly what the
counterexample exploits), the ids of all messages are pairwise distinct
after every operation; and unconditionally, every message created by an
operation carries the chat id that is active for it (the newly activated
chat for `handleNewChat`, the currently active chat for
`handleSendMessage`), while all other messages are untouched. -/
theorem chat_messages_invariant :
    (∀ (u : Option String) (cs : ConnStatus) (ops : List ChatOp),
      (traceTimes ops).Pairwise (· < ·) →
      ((run (initState u cs) ops).messages.map Message.id).Nodup) ∧
    (∀ (st : ChatState) (op : ChatOp) (m : Message),
      m ∈ (step st op).messages →
      m ∈ st.messages ∨ some m.chat_id = (step st op).activeChatId ∨
        some m.chat_id = st.activeChatId) := by
  constructor
  · intro u cs ops hpw
    exact (run_preserves_idsOk ops (initState u cs)
      ⟨List.nodup_nil, fun m hm => absurd hm (List.not_mem_nil m)⟩
      (fun m hm => absurd hm (List.not_mem_nil m)) hpw).1
  · intro st op m hm
    cases op with
    | newChat t pick =>
      simp only [step, handleNewChat, List.mem_singleton] at hm
      subst hm
      right; left
      rfl
    | setInput s => left; exact hm
    | selectChat id => left; exact hm
    | deleteChat =>
      simp only [step, handleDeleteChat] at hm
      cases hact : st.activeChatId with
      | none => rw [hact] at hm; left; exact hm
      | some activeId => rw [hact] at hm; cases hm
    | send tU tB res =>
      rcases handleSendMessage_messages st tU tB res with hmsg | ⟨c, hc, hmsg⟩ |
        ⟨c, r, hc, _, hmsg⟩ | ⟨c, msg, hc, _, hmsg⟩ <;>
        rw [show (step st (ChatOp.send tU tB res)).messages =
          (handleSendMessage st tU tB res).1.messages from rfl, hmsg] at hm
      · left; exact hm
      · rcases List.mem_append.mp hm with h1 | h2
        · left; exact h1
        · rw [List.mem_singleton] at h2
          subst h2
          right; right
          rw [hc]
          rfl
      · rcases List.mem_append.mp hm with h1 | h2
        · rcases List.mem_append.mp h1 with h3 | h4
          · left; exact h3
          · rw [List.mem_singleton] at h4
            subst h4
            right; right
            rw [hc]
            rfl
        · rw [List.mem_singleton] at h2
          subst h2
          right; right
          rw [hc]
          rfl
      · rcases List.mem_append.mp hm with h1 | h2
        · rcases List.mem_append.mp h1 with h3 | h4
          · left; exact h3
          · rw [List.mem_singleton] at h4
            subst h4
            right; right
            rw [hc]
            rfl
        · rw [List.mem_singleton] at h2
          subst h2
          right; right
          rw [hc]
          rfl

/-- Witness for `chat_messages_invariant` on a concrete strictly increasing
trace. -/
theorem chat_messages_invariant_witness :
    ((run (initState (some "u") ConnStatus.connected)
      [ChatOp.newChat 1 0, ChatOp.setInput "hi",
       ChatOp.send 2 3 (Except.error "boom")]).messages.map Message.id).Nodup :=
  chat_messages_invariant.1 (some "u") ConnStatus.connected
    [ChatOp.newChat 1 0, ChatOp.setInput "hi",
     ChatOp.send 2 3 (Except.error "boom")] (by decide)

/-- C4 counterexample: the `fetchVisualizationData` of
`src/frontend/src/pages/DashboardPage.tsx` posts a body WITHOUT the `mode`
field, so not every dashboard `/visualize` request carries exactly
`parameter`, `date_range`, `region` and `mode`. -/
theorem visualize_plain_body_has_no_mode :
    ¬ fieldNames (DashPlain.vizRequest "temperature" "6months" "global").body =
      ["parameter", "date_range", "region", "mode"] := by
  decide

/-- C4 (amended): every dashboard `/visualize` request is a POST and is
issued exactly once per fetch; the map/chart variant posts exactly
`parameter`, `date_range`, `region` and `mode`, decodes `map_figure` and
`chart_figure` from a 2xx response, and when neither figure is present it
surfaces the response's `message` field (with a fixed fallback) as the
error; the single-figure variant posts exactly `parameter`, `date_range`
and `region` (no `mode`) and treats the whole 2xx body as the figure. -/
theorem visualize_contract (parse : String → Except String Json)
    (parameter dateRange region : String) (outcome : FetchOutcome) :
    (DashModes.fetchVisualizationData parse parameter dateRange region outcome).1 =
      [DashModes.vizRequest parameter dateRange region] ∧
    (DashModes.vizRequest parameter dateRange region).method = "POST" ∧
    fieldNames (DashModes.vizRequest parameter dateRange region).body =
      ["parameter", "date_range", "region", "mode"] ∧
    (DashPlain.fetchVisualizationData parse parameter dateRange region outcome).1 =
      [DashPlain.vizRequest parameter dateRange region] ∧
    (DashPlain.vizRequest parameter dateRange region).method = "POST" ∧
    fieldNames (DashPlain.vizRequest parameter dateRange region).body =
      ["parameter", "date_range", "region"] ∧
    (∀ status body fig ms cs mv cv,
      outcome = FetchOutcome.response status body → respOk status = true →
      parse body = Except.ok fig →
      DashModes.truthyField fig "map_figure" = some ms →
      DashModes.truthyField fig "chart_figure" = some cs →
      DashModes.jsonParseArg parse ms = Except.ok mv →
      DashModes.jsonParseArg parse cs = Except.ok cv →
      (DashModes.fetchVisualizationData parse parameter dateRange region outcome).2 =
        { mapFigure := some mv, chartFigure := some cv, error := none,
          isLoading := false }) ∧
    (∀ status body fig,
      outcome = FetchOutcome.response status body → respOk status = true →
      parse body = Except.ok fig →
      DashModes.truthyField fig "map_figure" = none →
      DashModes.truthyField fig "chart_figure" = none →
      (DashModes.fetchVisualizationData parse parameter dateRange region outcome).2 =
        { mapFigure := none, chartFigure := none,
          error := some (jsOrElse (getField fig "message") "No visualization returned."),
          isLoading := false }) ∧
    (∀ status body fig,
      outcome = FetchOutcome.response status body → respOk status = true →
      parse body = Except.ok fig →
      (DashPlain.fetchVisualizationData parse parameter dateRange region outcome).2 =
        { plotFigure := some fig, error := none, isLoading := false }) := by
  refine ⟨rfl, rfl, rfl, rfl, rfl, rfl, ?_, ?_, ?_⟩
  · rintro status body fig ms cs mv cv rfl hok hparse hmap hchart hmv hcv
    simp [DashModes.fetchVisualizationData, DashModes.decodeFigures,
      hok, hparse, hmap, hchart, hmv, hcv]
  · rintro status body fig rfl hok hparse hmap hchart
    simp [DashModes.fetchVisualizationData, DashModes.decodeFigures,
      hok, hparse, hmap, hchart]
  · rintro status body fig rfl hok hparse
    simp [DashPlain.fetchVisualizationData, hok, hparse]

/-- Witness for `visualize_contract`: a 2xx body with both figures decodes
into map and chart figures. -/
theorem visualize_contract_witness :
    (DashModes.fetchVisualizationData
      (fun s => if s = "body" then
          Except.ok (Json.obj [("map_figure", Json.str "mf"),
                               ("chart_figure", Json.str "cf")])
        else Except.ok (Json.arr []))
      "temperature" "6months" "global" (FetchOutcome.response 200 "body")).2 =
      { mapFigure := some (Json.arr []), chartFigure := some (Json.arr []),
        error := none, isLoading := false } := by
  have h := visualize_contract
    (fun s => if s = "body" then
        Except.ok (Json.obj [("map_figure", Json.str "mf"),
                             ("chart_figure", Json.str "cf")])
      else Except.ok (Json.arr []))
    "temperature" "6months" "global" (FetchOutcome.response 200 "body")
  exact h.2.2.2.2.2.2.1 200 "body"
    (Json.obj [("map_figure", Json.str "mf"), ("chart_figure", Json.str "cf")])
    (Json.str "mf") (Json.str "cf") (Json.arr []) (Json.arr [])
    rfl (by decide) rfl rfl rfl rfl rfl

end FloatChat
